import Mathlib

/-!
Verification of the FTDI MPSSE JTAG TAP driver (src/main.rs) against its
natural-language specification.

The Rust source is shallowly embedded: each function that writes MPSSE
command buffers is modelled as a Lean function producing the list of
commands it writes, in write order; Rust panics (a failed `assert!` or an
`unwrap` of an `Err`) are modelled as an `aborted` outcome; the source's
unbounded wait-for-data loop is modelled as a fuel-indexed recursion whose
`fuelOut` outcome means the loop was still running when the fuel ran out.
The per-cycle meaning of the MPSSE commands (which TMS/TDI values each
clock cycle presents and whether TDO is sampled) and the error taxonomies
are modelled from the specification, since the encoder itself lives in the
external `ftdi_mpsse` crate.
-/

namespace FtdiJtag

/-- The 16 canonical IEEE 1149.1 TAP controller states (spec section 3). -/
inductive TapState where
  | testLogicReset
  | runTestIdle
  | selectDrScan
  | captureDr
  | shiftDr
  | exit1Dr
  | pauseDr
  | exit2Dr
  | updateDr
  | selectIrScan
  | captureIr
  | shiftIr
  | exit1Ir
  | pauseIr
  | exit2Ir
  | updateIr
  deriving DecidableEq, Fintype

/-- Modelled from the spec: the canonical IEEE 1149.1 16-state transition
table (spec sections 3 and 8): the next state is a pure function of the
current state and one TMS bit, independent of TDI. -/
def tapNext : TapState → Bool → TapState
  | TapState.testLogicReset, false => TapState.runTestIdle
  | TapState.testLogicReset, true => TapState.testLogicReset
  | TapState.runTestIdle, false => TapState.runTestIdle
  | TapState.runTestIdle, true => TapState.selectDrScan
  | TapState.selectDrScan, false => TapState.captureDr
  | TapState.selectDrScan, true => TapState.selectIrScan
  | TapState.captureDr, false => TapState.shiftDr
  | TapState.captureDr, true => TapState.exit1Dr
  | TapState.shiftDr, false => TapState.shiftDr
  | TapState.shiftDr, true => TapState.exit1Dr
  | TapState.exit1Dr, false => TapState.pauseDr
  | TapState.exit1Dr, true => TapState.updateDr
  | TapState.pauseDr, false => TapState.pauseDr
  | TapState.pauseDr, true => TapState.exit2Dr
  | TapState.exit2Dr, false => TapState.shiftDr
  | TapState.exit2Dr, true => TapState.updateDr
  | TapState.updateDr, false => TapState.runTestIdle
  | TapState.updateDr, true => TapState.selectDrScan
  | TapState.selectIrScan, false => TapState.captureIr
  | TapState.selectIrScan, true => TapState.testLogicReset
  | TapState.captureIr, false => TapState.shiftIr
  | TapState.captureIr, true => TapState.exit1Ir
  | TapState.shiftIr, false => TapState.shiftIr
  | TapState.shiftIr, true => TapState.exit1Ir
  | TapState.exit1Ir, false => TapState.pauseIr
  | TapState.exit1Ir, true => TapState.updateIr
  | TapState.pauseIr, false => TapState.pauseIr
  | TapState.pauseIr, true => TapState.exit2Ir
  | TapState.exit2Ir, false => TapState.shiftIr
  | TapState.exit2Ir, true => TapState.updateIr
  | TapState.updateIr, false => TapState.runTestIdle
  | TapState.updateIr, true => TapState.selectDrScan

/-- Replay a TMS bit sequence through the transition table. -/
def tapRun : TapState → List Bool → TapState
  | s, [] => s
  | s, b :: bs => tapRun (tapNext s b) bs

/-- One TCK clock cycle as driven by an MPSSE command: the TMS and TDI
values presented to the device, and whether TDO is sampled that cycle. -/
structure Cycle where
  tms : Bool
  tdi : Bool
  capture : Bool
  deriving DecidableEq

/-- Edge mode of `ftdi_mpsse::ClockTMSOut`; only `NegEdge` is used. -/
inductive TmsOutMode where
  | NegEdge
  deriving DecidableEq

/-- Mode of `ftdi_mpsse::ClockBitsOut`; only `LsbNeg` is used. -/
inductive BitsOutMode where
  | LsbNeg
  deriving DecidableEq

/-- Mode of `ftdi_mpsse::ClockBits`; only `LsbPosIn` is used. -/
inductive BitsMode where
  | LsbPosIn
  deriving DecidableEq

/-- Mode of `ftdi_mpsse::ClockTMS`; only `NegTMSPosTDO` is used. -/
inductive TmsCaptureMode where
  | NegTMSPosTDO
  deriving DecidableEq

/-- Mode of `ftdi_mpsse::ClockData`; only `LsbPosIn` is used. -/
inductive BytesMode where
  | LsbPosIn
  deriving DecidableEq

/-- An MPSSE command as produced by one `MpsseCmdBuilder` call in the
source, with the arguments the source passes. -/
inductive Cmd where
  | clockTmsOut (mode : TmsOutMode) (tms : Nat) (tdi : Bool) (len : Nat)
  | clockBitsOut (mode : BitsOutMode) (data : Nat) (len : Nat)
  | clockBits (mode : BitsMode) (data : Nat) (len : Nat)
  | clockTms (mode : TmsCaptureMode) (tms : Nat) (tdi : Bool) (len : Nat)
  | clockData (mode : BytesMode) (data : List Nat)
  | setClock (divisor : Nat) (threePhase : Option Bool)
  | disableAdaptiveDataClocking
  | disable3PhaseDataClocking
  | disableLoopback
  | setGpioLower (val : Nat) (dir : Nat)
  | setGpioUpper (val : Nat) (dir : Nat)
  deriving DecidableEq

/-- Modelled from the spec: the clock cycles a single MPSSE command drives
(spec sections 4.1 and 6). TMS commands clock the pattern bits
least-significant-bit first while TDI is held at the command's constant
TDI argument; bit and byte data commands clock TDI least-significant-bit
first while TMS is held low; the `In` modes sample TDO every cycle, the
`Out` modes sample nothing; configuration commands drive no cycles. -/
def cmdCycles : Cmd → List Cycle
  | Cmd.clockTmsOut _ tms tdi len =>
      (List.range len).map fun i => ⟨tms.testBit i, tdi, false⟩
  | Cmd.clockBitsOut _ data len =>
      (List.range len).map fun i => ⟨false, data.testBit i, false⟩
  | Cmd.clockBits _ data len =>
      (List.range len).map fun i => ⟨false, data.testBit i, true⟩
  | Cmd.clockTms _ tms tdi len =>
      (List.range len).map fun i => ⟨tms.testBit i, tdi, true⟩
  | Cmd.clockData _ data =>
      data.foldr (fun b acc => ((List.range 8).map fun i => ⟨false, b.testBit i, true⟩) ++ acc) []
  | _ => []

/-- All clock cycles of a command sequence, in issue order. -/
def traceCycles (cmds : List Cmd) : List Cycle :=
  cmds.foldr (fun c acc => cmdCycles c ++ acc) []

/-- The TMS bit sequence a command sequence clocks into the TAP. -/
def traceTms (cmds : List Cmd) : List Bool :=
  (traceCycles cmds).map Cycle.tms

/-- Modelled from the spec: number of response bytes a command makes the
device append to its outbound queue (spec section 3, ResponseBuffer): a
captured shift of N bits packs into ceil(N/8) bytes; a captured byte-mode
shift produces one byte per payload byte; commands that capture nothing
produce nothing. -/
def cmdRespBytes : Cmd → Nat
  | Cmd.clockBits _ _ len => (len + 7) / 8
  | Cmd.clockTms _ _ _ len => (len + 7) / 8
  | Cmd.clockData _ data => data.length
  | _ => 0

/-- Total response bytes produced by a command sequence. -/
def respBytesTotal (cmds : List Cmd) : Nat :=
  cmds.foldr (fun c n => cmdRespBytes c + n) 0

/-- Bit counts passed to the four bit-level clocking commands, in issue
order; byte-level and configuration commands contribute none. -/
def bitLevelCounts (cmds : List Cmd) : List Nat :=
  cmds.foldr (fun c acc =>
    match c with
    | Cmd.clockTmsOut _ _ _ len => len :: acc
    | Cmd.clockBitsOut _ _ len => len :: acc
    | Cmd.clockBits _ _ len => len :: acc
    | Cmd.clockTms _ _ _ len => len :: acc
    | _ => acc) []

/-- Modelled from the spec: the typed protocol error taxonomy of spec
section 7. No value of this type is ever constructed by the embedded
source: src/main.rs defines no error type at all and fails only through
`unwrap` and `assert!` panics. -/
inductive ProtocolError where
  | SyncTimeout
  | SyncMismatch
  | InstructionTooShort
  | PayloadTooShort
  deriving DecidableEq, Fintype

/-- Modelled from the spec: the encoder error taxonomy of spec section 4.1. -/
inductive EncodingError where
  | LengthOutOfRange
  deriving DecidableEq

/-- Modelled from the spec: the encoder accepts bit counts 1 to 7 for
bit-level operations and fails with `LengthOutOfRange` otherwise (spec
section 4.1). -/
def checkBitCount (n : Nat) : Except EncodingError Unit :=
  if 1 ≤ n ∧ n ≤ 7 then Except.ok () else Except.error EncodingError.LengthOutOfRange

/-- Outcome of running an embedded operation. `ok` is a normal return;
`aborted` is a Rust panic (failed `assert!`, or `unwrap` of an `Err`)
terminating the process; `fuelOut` means the fuel bound was exhausted
while a source loop — unbounded in the source — was still running; `err`
is a returned typed error, present so that the specification's claims
about typed errors can be stated, though the embedded source never
produces it. -/
inductive RunResult (α : Type) where
  | ok (a : α)
  | aborted
  | fuelOut
  | err (e : ProtocolError)
  deriving DecidableEq

/-- Instruction opcodes (src/main.rs lines 8-13). -/
def IDCODE : Nat := 0x09

def USER1 : Nat := 0x02

def USER2 : Nat := 0x03

def USER3 : Nat := 0x22

def USER4 : Nat := 0x23

def USERCODE : Nat := 0x08

/-- Fuel-indexed embedding of `wait_data` (src lines 15-28): the source
loops forever polling `queue_status`, breaking only when it is nonzero.
`pending i` is the queue status observed at the i-th poll; the
`queue_status`/`status` calls themselves are modelled as always
succeeding. `fuelOut` means the fuel ran out with the source loop still
running: the source has no bound of its own. -/
def wait_data_loop (pending : Nat → Nat) : Nat → Nat → RunResult Unit
  | i, fuel + 1 =>
      if pending i ≠ 0 then RunResult.ok ()
      else wait_data_loop pending (i + 1) fuel
  | _, 0 => RunResult.fuelOut

/-- Behaviour of the transport as the embedded code observes it:
whether `write_all` succeeds, the `queue_status` value at each poll,
whether `read_all` succeeds, and the two bytes `sync` reads. -/
structure Transport where
  writeOk : Bool
  pending : Nat → Nat
  readOk : Bool
  resp0 : Nat
  resp1 : Nat

/-- The raw byte buffer written by `sync` (src line 32): the reserved
invalid opcode 0xAA. -/
def syncRequest : List Nat := [0xaa]

/-- Number of response bytes `sync` reads (src line 37, `buf: [u8; 2]`). -/
def syncReadCount : Nat := 2

/-- Embedding of `sync` (src lines 30-42): write the bad command byte
(`unwrap` panics on a write failure), wait for data, read two bytes
(`unwrap` panics on a read failure), then `assert_eq!` the first byte
against 0xFA and the second against 0xAA — a failed assertion panics. -/
def sync (t : Transport) (fuel : Nat) : RunResult Unit :=
  if t.writeOk then
    match wait_data_loop t.pending 0 fuel with
    | RunResult.ok _ =>
        if t.readOk then
          if t.resp0 = 0xfa then
            if t.resp1 = 0xaa then RunResult.ok ()
            else RunResult.aborted
          else RunResult.aborted
        else RunResult.aborted
    | RunResult.fuelOut => RunResult.fuelOut
    | RunResult.aborted => RunResult.aborted
    | RunResult.err e => RunResult.err e
  else RunResult.aborted

/-- Embedding of `reset_tap` (src lines 45-51): one `clock_tms_out` with
pattern 0x7f over 7 cycles, TDI held low. -/
def reset_tap : List Cmd :=
  [Cmd.clockTmsOut TmsOutMode.NegEdge 0x7f false 7]

/-- Commands written by `shift_ir` once past its assertion (src lines
61-69): `len - 1` opcode bits LSB-first without capture, then one TMS=1
cycle with the TDI argument fixed at `false`. -/
def shiftIrCmds (insn len : Nat) : List Cmd :=
  [Cmd.clockBitsOut BitsOutMode.LsbNeg insn (len - 1),
   Cmd.clockTmsOut TmsOutMode.NegEdge 0x01 false 1]

/-- Embedding of `shift_ir` (src lines 56-70): `assert!(len >= 2)` panics
before anything is written; otherwise both command buffers are written.
Returns the commands written together with the outcome. -/
def shift_ir (insn len : Nat) : List Cmd × RunResult Unit :=
  if 2 ≤ len then (shiftIrCmds insn len, RunResult.ok ()) else ([], RunResult.aborted)

/-- Commands written by `shift_dr` once past its assertion (src lines
79-88): 7 bits of `data` with capture, then one TMS=1 cycle with the TDI
argument fixed at `false`. -/
def shiftDrCmds (data : Nat) : List Cmd :=
  [Cmd.clockBits BitsMode.LsbPosIn data 7,
   Cmd.clockTms TmsCaptureMode.NegTMSPosTDO 0x01 false 1]

/-- Embedding of `shift_dr` (src lines 74-89, unused by `main`):
`assert!(len >= 2)` panics before anything is written; note the source
ignores `len` afterwards and always clocks 7 bits. -/
def shift_dr (data len : Nat) : List Cmd × RunResult Unit :=
  if 2 ≤ len then (shiftDrCmds data, RunResult.ok ()) else ([], RunResult.aborted)

/-- Commands written by `shift_bytes` once past its assertion (src lines
94-112): all bytes but the last in byte mode with capture, then 7 bits of
the last byte with capture, then one TMS=1 cycle (TDO captured) with the
TDI argument fixed at `false`. -/
def shiftBytesCmds (data : List Nat) : List Cmd :=
  [Cmd.clockData BytesMode.LsbPosIn data.dropLast,
   Cmd.clockBits BitsMode.LsbPosIn (data.getLastD 0) 7,
   Cmd.clockTms TmsCaptureMode.NegTMSPosTDO 0x01 false 1]

/-- Embedding of `shift_bytes` (src lines 91-113): `assert!(data.len() >= 2)`
panics before anything is written; otherwise all three command buffers are
written. Returns the commands written together with the outcome. -/
def shift_bytes (data : List Nat) : List Cmd × RunResult Unit :=
  if 2 ≤ data.length then (shiftBytesCmds data, RunResult.ok ())
  else ([], RunResult.aborted)

/-- Embedding of `reset_to_shift_dr` (src lines 115-121, unused by `main`). -/
def reset_to_shift_dr : List Cmd :=
  [Cmd.clockTmsOut TmsOutMode.NegEdge 0x2 false 4]

/-- Embedding of `reset_to_shift_ir` (src lines 123-130): TMS pattern 0x6
over 5 cycles, documented as Test-Logic-Reset to Shift-IR. -/
def reset_to_shift_ir : List Cmd :=
  [Cmd.clockTmsOut TmsOutMode.NegEdge 0x6 false 5]

/-- Embedding of `exit_ir_to_shift_dr` (src lines 132-138): TMS pattern
0x03 over 4 cycles, documented as Exit1-IR to Shift-DR. -/
def exit_ir_to_shift_dr : List Cmd :=
  [Cmd.clockTmsOut TmsOutMode.NegEdge 0x03 false 4]

/-- Embedding of `exit_dr_to_reset` (src lines 140-146): TMS pattern 0xff
over 4 cycles, documented as Exit1-DR to Test-Logic-Reset. -/
def exit_dr_to_reset : List Cmd :=
  [Cmd.clockTmsOut TmsOutMode.NegEdge 0xff false 4]

/-- JTAG setup command buffer written by `main` (src lines 181-188). -/
def setupCmds : List Cmd :=
  [Cmd.setClock 0x5db (some false),
   Cmd.disableAdaptiveDataClocking,
   Cmd.disable3PhaseDataClocking,
   Cmd.disableLoopback]

/-- GPIO setup command buffer written by `main` (src lines 191-196). -/
def gpioCmds : List Cmd :=
  [Cmd.setGpioLower 0x08 0x0b, Cmd.setGpioUpper 0x00 0x00]

/-- All MPSSE command buffers written by `main` after the sync handshake,
in write order (src lines 180-210); the commented-out `reset_to_shift_dr`
and `shift_dr` calls are not issued. -/
def mainCmds : List Cmd :=
  setupCmds ++ gpioCmds ++ reset_tap ++ reset_to_shift_ir
    ++ (shift_ir IDCODE 6).1 ++ exit_ir_to_shift_dr
    ++ (shift_bytes [0, 0, 0, 0]).1 ++ exit_dr_to_reset

/-- Size of the read-back buffer in `main` (src line 215, `buf: [u8; 5]`). -/
def mainReadCount : Nat := 5

/-- Transport behaviour with a responsive device answering [0xFA, 0xAA]. -/
def tGood : Transport := ⟨true, fun _ => 1, true, 0xfa, 0xaa⟩

/-- Transport behaviour with a responsive device answering [0xFA, 0x00]. -/
def tBadResp : Transport := ⟨true, fun _ => 1, true, 0xfa, 0x00⟩

/-- Transport behaviour whose write fails. -/
def tBadWrite : Transport := ⟨false, fun _ => 1, true, 0xfa, 0xaa⟩

/-- Replaying a concatenation of TMS sequences is replaying them in turn. -/
theorem tapRun_append (s : TapState) (l1 l2 : List Bool) :
    tapRun s (l1 ++ l2) = tapRun (tapRun s l1) l2 := by
  induction l1 generalizing s with
  | nil => rfl
  | cons b bs ih => simp [tapRun, ih]

/-- Shift-IR is a fixed point of any run of TMS=0 cycles. -/
theorem tapRun_shiftIr_const_false (l : List Nat) :
    tapRun TapState.shiftIr (l.map fun _ => false) = TapState.shiftIr := by
  induction l with
  | nil => rfl
  | cons a as ih => simpa [tapRun, tapNext] using ih

/-- If the device never reports a pending byte, the wait loop never exits,
whatever the fuel. -/
theorem wait_data_loop_stuck (pending : Nat → Nat) (h : ∀ i, pending i = 0) :
    ∀ i fuel, wait_data_loop pending i fuel = RunResult.fuelOut := by
  intro i fuel
  induction fuel generalizing i with
  | zero => rfl
  | succ n ih => simp [wait_data_loop, h, ih]

/-- The wait loop only ever returns `ok` or `fuelOut`; in particular it
never produces a typed error. -/
theorem wait_data_loop_no_err (pending : Nat → Nat) :
    ∀ i fuel e, wait_data_loop pending i fuel ≠ RunResult.err e := by
  intro i fuel
  induction fuel generalizing i with
  | zero => intro e h; exact RunResult.noConfusion h
  | succ n ih =>
      intro e
      by_cases hp : pending i ≠ 0
      · simp [wait_data_loop, hp]
      · simpa [wait_data_loop, hp] using ih (i + 1) e

/-- C2: replaying the TMS sequence of each hardcoded state-navigation
operation (`reset_to_shift_ir`, `exit_ir_to_shift_dr`, `exit_dr_to_reset`)
against the canonical IEEE 1149.1 transition table, LSB first for the
stated bit count, takes its documented source state exactly to its
documented target state, and every path has length at most 15. -/
theorem C2_hardcoded_paths :
    tapRun TapState.testLogicReset (traceTms reset_to_shift_ir) = TapState.shiftIr
  ∧ tapRun TapState.exit1Ir (traceTms exit_ir_to_shift_dr) = TapState.shiftDr
  ∧ tapRun TapState.exit1Dr (traceTms exit_dr_to_reset) = TapState.testLogicReset
  ∧ (traceTms reset_to_shift_ir).length ≤ 15
  ∧ (traceTms exit_ir_to_shift_dr).length ≤ 15
  ∧ (traceTms exit_dr_to_reset).length ≤ 15 := by decide

/-- C4: `reset_tap` clocks TMS=1 for 7 consecutive cycles — at least 5 —
and replaying its TMS sequence from every one of the 16 TAP states ends in
Test-Logic-Reset. -/
theorem C4_reset_tap_resets :
    traceTms reset_tap = List.replicate 7 true
  ∧ 5 ≤ (traceTms reset_tap).length
  ∧ ∀ s : TapState, tapRun s (traceTms reset_tap) = TapState.testLogicReset := by
  decide

/-- C4 witness: the universal part of the theorem applied at a concrete
state. -/
theorem C4_reset_tap_resets_witness :
    tapRun TapState.pauseDr (traceTms reset_tap) = TapState.testLogicReset :=
  C4_reset_tap_resets.2.2 TapState.pauseDr

/-- C1 (code-bug evaluation): on the exit cycle the source drives TDI low
unconditionally — the TDI argument of the final TMS command is the
constant `false` (the source marks this "TODO: set last data bit") — so
for `shift_ir` with opcode 0x20 and length 6, and for `shift_bytes` with
last payload byte 0x80, the final opcode/payload bit, which is 1, is never
driven on TDI during the TMS=1 transition to Exit1-IR/Exit1-DR. -/
theorem C1_final_bit_not_driven :
    (traceCycles (shift_ir 0x20 6).1).getLast? = some ⟨true, false, false⟩
  ∧ Nat.testBit 0x20 5 = true
  ∧ (traceCycles (shift_bytes [0, 0, 0, 0x80]).1).getLast? = some ⟨true, false, true⟩
  ∧ Nat.testBit 0x80 7 = true := by decide

/-- C3 (amended): the wait-for-data poll loop of `wait_data` has no upper
bound on total wait: against a device that never makes a byte available it
never exits, however much fuel it is given — in particular it never fails
with a typed `SyncTimeout` error, which does not exist in the source. -/
theorem C3_wait_data_unbounded (pending : Nat → Nat) (h : ∀ i, pending i = 0)
    (i fuel : Nat) :
    wait_data_loop pending i fuel = RunResult.fuelOut :=
  wait_data_loop_stuck pending h i fuel

/-- C3 witness: the amended theorem at the device that never has a byte
pending, with concrete fuel. -/
theorem C3_wait_data_unbounded_witness :
    (∀ i, (fun _ : Nat => 0) i = 0)
  ∧ wait_data_loop (fun _ => 0) 0 5 = RunResult.fuelOut :=
  ⟨fun _ => rfl, C3_wait_data_unbounded (fun _ => 0) (fun _ => rfl) 0 5⟩

/-- C3 counterexample: the claim that the loop terminates within some
bound for every device behaviour is false — with the device that never has
a byte pending, no amount of fuel makes the loop exit. -/
theorem C3_counterexample :
    ¬ ∃ fuel, wait_data_loop (fun _ => 0) 0 fuel ≠ RunResult.fuelOut := by
  rintro ⟨fuel, hne⟩
  exact hne (wait_data_loop_stuck (fun _ => 0) (fun _ => rfl) 0 fuel)

/-- C5 (amended): the sync handshake writes the single reserved byte 0xAA,
reads exactly 2 response bytes, and succeeds if and only if the first is
0xFA and the second is 0xAA; if either byte differs it aborts the process
through a failed `assert_eq!` — it does not return a typed
`ProtocolError::SyncMismatch`, which does not exist in the source. -/
theorem C5_sync_check (t : Transport)
    (hw : t.writeOk = true) (hr : t.readOk = true) (hp : t.pending 0 ≠ 0) :
    syncRequest = [0xaa]
  ∧ syncReadCount = 2
  ∧ (sync t 1 = RunResult.ok () ↔ (t.resp0 = 0xfa ∧ t.resp1 = 0xaa))
  ∧ (¬ (t.resp0 = 0xfa ∧ t.resp1 = 0xaa) → sync t 1 = RunResult.aborted) := by
  have hsync : sync t 1 =
      (if t.resp0 = 0xfa then
        if t.resp1 = 0xaa then RunResult.ok () else RunResult.aborted
       else RunResult.aborted) := by
    simp [sync, wait_data_loop, hw, hr, hp]
  refine ⟨rfl, rfl, ?_, ?_⟩
  · rw [hsync]
    by_cases h0 : t.resp0 = 0xfa <;> by_cases h1 : t.resp1 = 0xaa <;>
      simp [h0, h1]
  · intro hne
    rw [hsync]
    by_cases h0 : t.resp0 = 0xfa
    · by_cases h1 : t.resp1 = 0xaa
      · exact absurd ⟨h0, h1⟩ hne
      · simp [h0, h1]
    · simp [h0]

/-- C5 witness: the theorem at the responsive well-behaved transport. -/
theorem C5_sync_check_witness :
    tGood.writeOk = true ∧ tGood.readOk = true ∧ tGood.pending 0 ≠ 0
  ∧ (syncRequest = [0xaa]
    ∧ syncReadCount = 2
    ∧ (sync tGood 1 = RunResult.ok () ↔ (tGood.resp0 = 0xfa ∧ tGood.resp1 = 0xaa))
    ∧ (¬ (tGood.resp0 = 0xfa ∧ tGood.resp1 = 0xaa) → sync tGood 1 = RunResult.aborted)) :=
  ⟨rfl, rfl, by decide, C5_sync_check tGood rfl rfl (by decide)⟩

/-- C5 counterexample: with response bytes [0xFA, 0x00] the handshake
aborts the process through a failed assertion; it does not fail with the
typed error `SyncMismatch`. -/
theorem C5_counterexample :
    sync tBadResp 1 = RunResult.aborted
  ∧ sync tBadResp 1 ≠ RunResult.err ProtocolError.SyncMismatch := by decide

/-- C6 (amended): `shift_ir` with `len < 2` and `shift_bytes` with a
payload of fewer than 2 bytes abort the process through a failed `assert!`
— not through typed `InstructionTooShort`/`PayloadTooShort` errors, which
do not exist in the source — and in both cases no command is written to
the transport before the abort. -/
theorem C6_short_inputs_abort (insn len : Nat) (data : List Nat)
    (h1 : len < 2) (h2 : data.length < 2) :
    shift_ir insn len = ([], RunResult.aborted)
  ∧ shift_bytes data = ([], RunResult.aborted) := by
  have h1' : ¬ 2 ≤ len := by omega
  have h2' : ¬ 2 ≤ data.length := by omega
  exact ⟨by simp [shift_ir, h1'], by simp [shift_bytes, h2']⟩

/-- C6 witness: the theorem at a 1-bit instruction and 1-byte payload. -/
theorem C6_short_inputs_abort_witness :
    1 < 2 ∧ ([0] : List Nat).length < 2
  ∧ (shift_ir 9 1 = ([], RunResult.aborted)
    ∧ shift_bytes [0] = ([], RunResult.aborted)) :=
  ⟨by decide, by decide, C6_short_inputs_abort 9 1 [0] (by decide) (by decide)⟩

/-- C6 counterexample: on the too-short inputs the operations abort the
process; they do not fail with the typed errors the claim names. -/
theorem C6_counterexample :
    (shift_ir 9 1).2 = RunResult.aborted
  ∧ (shift_ir 9 1).2 ≠ RunResult.err ProtocolError.InstructionTooShort
  ∧ (shift_bytes [0]).2 = RunResult.aborted
  ∧ (shift_bytes [0]).2 ≠ RunResult.err ProtocolError.PayloadTooShort := by decide

/-- C7 (amended): no embedded core operation ever returns a typed error;
every failure is a process-terminating panic. In particular the sync
handshake, the wait loop and the instruction shift never produce an `err`
result, and a failing transport write makes `sync` abort the process
rather than propagate an error to the caller. -/
theorem C7_failures_abort_process :
    (∀ (t : Transport) (fuel : Nat) (e : ProtocolError),
      sync t fuel ≠ RunResult.err e)
  ∧ (∀ (pending : Nat → Nat) (i fuel : Nat) (e : ProtocolError),
      wait_data_loop pending i fuel ≠ RunResult.err e)
  ∧ (∀ (insn len : Nat) (e : ProtocolError), (shift_ir insn len).2 ≠ RunResult.err e)
  ∧ sync tBadWrite 1 = RunResult.aborted := by
  refine ⟨?_, ?_, ?_, by decide⟩
  · intro t fuel e
    by_cases hw : t.writeOk
    · cases hwd : wait_data_loop t.pending 0 fuel with
      | ok a =>
          by_cases hr : t.readOk <;> by_cases h0 : t.resp0 = 0xfa <;>
            by_cases h1 : t.resp1 = 0xaa <;> simp [sync, hw, hwd, hr, h0, h1]
      | aborted => simp [sync, hw, hwd]
      | fuelOut => simp [sync, hw, hwd]
      | err e2 => exact absurd hwd (wait_data_loop_no_err t.pending 0 fuel e2)
    · simp [sync, hw]
  · exact wait_data_loop_no_err
  · intro insn len e
    by_cases h : 2 ≤ len <;> simp [shift_ir, h]

/-- C7 witness: the first universal part of the theorem at a concrete
transport, fuel and error. -/
theorem C7_failures_abort_process_witness :
    sync tGood 2 ≠ RunResult.err ProtocolError.SyncTimeout :=
  C7_failures_abort_process.1 tGood 2 ProtocolError.SyncTimeout

/-- C7 counterexample: when the transport write fails, `sync` aborts the
process (the `unwrap` panics); the failure is not propagated to the caller
as any typed error. -/
theorem C7_counterexample :
    sync tBadWrite 1 = RunResult.aborted
  ∧ ∀ e : ProtocolError, sync tBadWrite 1 ≠ RunResult.err e := by decide

/-- C8: from Shift-IR, `shift_ir insn len` with `len ≥ 2` first clocks
exactly `len − 1` bits of the opcode, least-significant bit first, as
TDI-only cycles with no TDO capture and TMS held low, then one TMS=1
cycle; the trace has exactly `len` clock cycles in total and replaying its
TMS bits from Shift-IR ends in Exit1-IR. -/
theorem C8_shift_ir_trace (insn len : Nat) (h : 2 ≤ len) :
    traceCycles (shift_ir insn len).1 =
      ((List.range (len - 1)).map fun i => ⟨false, Nat.testBit insn i, false⟩)
        ++ [⟨true, false, false⟩]
  ∧ (traceCycles (shift_ir insn len).1).length = len
  ∧ tapRun TapState.shiftIr ((traceCycles (shift_ir insn len).1).map Cycle.tms)
      = TapState.exit1Ir := by
  have hc : (shift_ir insn len).1 = shiftIrCmds insn len := by
    simp [shift_ir, h]
  have htms : cmdCycles (Cmd.clockTmsOut TmsOutMode.NegEdge 0x01 false 1) =
      [⟨true, false, false⟩] := by decide
  have htr : traceCycles (shift_ir insn len).1 =
      ((List.range (len - 1)).map fun i => (⟨false, Nat.testBit insn i, false⟩ : Cycle))
        ++ [⟨true, false, false⟩] := by
    rw [hc]
    simp [shiftIrCmds, traceCycles, htms, cmdCycles]
    decide
  refine ⟨htr, ?_, ?_⟩
  · rw [htr]
    simp
    omega
  · rw [htr]
    have hmap : (((List.range (len - 1)).map
          fun i => (⟨false, Nat.testBit insn i, false⟩ : Cycle))
        ++ [(⟨true, false, false⟩ : Cycle)]).map Cycle.tms =
        ((List.range (len - 1)).map fun _ => false) ++ [true] := by
      simp [Function.comp_def]
    rw [hmap, tapRun_append, tapRun_shiftIr_const_false]
    rfl

/-- C8 witness: the theorem at the session's IDCODE-length instruction. -/
theorem C8_shift_ir_trace_witness :
    2 ≤ 6
  ∧ (traceCycles (shift_ir 9 6).1 =
      ((List.range (6 - 1)).map fun i => ⟨false, Nat.testBit 9 i, false⟩)
        ++ [⟨true, false, false⟩]
    ∧ (traceCycles (shift_ir 9 6).1).length = 6
    ∧ tapRun TapState.shiftIr ((traceCycles (shift_ir 9 6).1).map Cycle.tms)
        = TapState.exit1Ir) :=
  ⟨by decide, C8_shift_ir_trace 9 6 (by decide)⟩

/-- C9: the complete list of bit counts that `main` passes to bit-level
clocking commands is [7, 5, 5, 1, 4, 7, 1, 4] — every count lies in the
range 1 to 7, the maximum 7 is attained by `reset_tap`, and the modelled
encoder range check accepts every one, so its `LengthOutOfRange` branch is
never taken in the program's execution. -/
theorem C9_bit_counts_in_range :
    bitLevelCounts mainCmds = [7, 5, 5, 1, 4, 7, 1, 4]
  ∧ (bitLevelCounts mainCmds).all (fun n => decide (1 ≤ n) && decide (n ≤ 7)) = true
  ∧ bitLevelCounts reset_tap = [7]
  ∧ (bitLevelCounts mainCmds).map checkBitCount = List.replicate 8 (Except.ok ()) :=
  ⟨rfl, rfl, rfl, rfl⟩

/-- C10: for every payload of n ≥ 2 bytes, `shift_bytes` issues exactly
three capture-producing commands whose responses total n + 1 bytes —
n − 1 from the byte-mode shift, 1 for the seven bit-mode captures of the
last byte, and 1 for the TDO bit captured on the TMS-combined exit cycle —
and accordingly the whole main session produces exactly 5 response bytes
after its 4-byte DR shift, matching the 5-byte read-back buffer. -/
theorem C10_response_bytes (data : List Nat) (h : 2 ≤ data.length) :
    ((shift_bytes data).1.countP fun c => decide (0 < cmdRespBytes c)) = 3
  ∧ respBytesTotal (shift_bytes data).1 = data.length + 1
  ∧ respBytesTotal mainCmds = mainReadCount
  ∧ mainReadCount = 5 := by
  have hc : (shift_bytes data).1 = shiftBytesCmds data := by
    simp [shift_bytes, h]
  have hd : 1 < data.length := by omega
  refine ⟨?_, ?_, rfl, rfl⟩
  · rw [hc]
    simp [shiftBytesCmds, List.countP_cons, cmdRespBytes, List.length_dropLast, hd]
  · rw [hc]
    simp [shiftBytesCmds, respBytesTotal, cmdRespBytes, List.length_dropLast]
    omega

/-- C10 witness: the theorem at the session's 4-byte all-zero payload. -/
theorem C10_response_bytes_witness :
    2 ≤ ([0, 0, 0, 0] : List Nat).length
  ∧ (((shift_bytes [0, 0, 0, 0]).1.countP fun c => decide (0 < cmdRespBytes c)) = 3
    ∧ respBytesTotal (shift_bytes [0, 0, 0, 0]).1 = ([0, 0, 0, 0] : List Nat).length + 1
    ∧ respBytesTotal mainCmds = mainReadCount
    ∧ mainReadCount = 5) :=
  ⟨by decide, C10_response_bytes [0, 0, 0, 0] (by decide)⟩

end FtdiJtag
